import Mathlib

/-!
Shallow embedding of `insights/api/setup.py` (the Setup Service of the
erp-insights repository) and proofs about its claims.

Loosely-typed Python values are modelled by `Value`, mappings and documents by
association lists (`Rec`), and the persistent state visible to this module by
`World`.  External collaborators (the document framework, the JSON codec, the
network, the fixture files, the demo-data factory) are modelled by explicit
environment structures whose fields record their outcomes; a Python exception
raised to the caller is an explicit boolean flag or an `Except.error`.
-/

set_option linter.unusedVariables false

/-- A loosely-typed Python value as it occurs in the setup module's input
mappings and records; `null` models Python `None`. -/
inductive Value where
  | null
  | str (s : String)
  | int (n : Int)
  | bool (b : Bool)
  deriving DecidableEq, Repr

/-- Python truthiness, `bool(x)`, for the values above: `None`, the empty
string, `0` and `False` are falsy. -/
def truthy : Value → Bool
  | Value.null => false
  | Value.str s => !(s == "")
  | Value.int n => !(n == 0)
  | Value.bool b => b

/-- Python `a or b`: `a` when `a` is truthy, otherwise `b`. -/
def pyOr (a b : Value) : Value := if truthy a then a else b

/-- A Python mapping / document: ordered key-value pairs, first match wins on
lookup. -/
abbrev Rec := List (String × Value)

/-- Lookup of a key in a record: `none` when the key is absent. -/
def rget (r : Rec) (k : String) : Option Value :=
  (r.find? (fun p => p.1 == k)).map (fun p => p.2)

/-- Python `d.get(k)`: the stored value, or `None` when the key is absent. -/
def dget (r : Rec) (k : String) : Value := (rget r k).getD Value.null

/-- `doc.update(kvs)` and `dict` construction: every listed key is (re)set to
its listed value, later entries shadowing earlier ones and the old record. -/
def rupdate (r : Rec) (kvs : Rec) : Rec := kvs.reverse ++ r

/-- Modelled from the spec: one character of the scrub normalization of
`frappe.scrub` — spaces and hyphens become underscores, letters are
lowercased. -/
def scrubChar (c : Char) : Char := if c = ' ' || c = '-' then '_' else c.toLower

/-- Modelled from the spec: `frappe.scrub` (external framework), the
"normalization of a display string into a storage-safe identifier (e.g.,
lowercase, underscores)".  It is an operation on display strings, so applying
it to an absent (`None`) value is outside its domain and raises; that failure
is modelled as `none`. -/
def scrub : Value → Option String
  | Value.str s => some (String.mk (s.data.map scrubChar))
  | _ => none

/-- Branch guard 1 of `get_new_datasource`: `db.get("connection_string")` is
truthy. -/
def hasConnectionString (db : Rec) : Bool := truthy (dget db "connection_string")

/-- Branch guard 2 of `get_new_datasource`: the value of `db.get("type")`
equals `"MariaDB"` or equals `"PostgreSQL"`. -/
def isMariaOrPostgres (db : Rec) : Bool :=
  decide (dget db "type" = Value.str "MariaDB")
    || decide (dget db "type" = Value.str "PostgreSQL")

/-- Branch guard 3 of `get_new_datasource`: `db.get("type")` equals
`"SQLite"`. -/
def isSQLite (db : Rec) : Bool := decide (dget db "type" = Value.str "SQLite")

/-- The key-value pairs written by the connection-string branch of
`get_new_datasource`. -/
def branch1Fields (db : Rec) : Rec :=
  [("title", dget db "title"),
   ("database_type", dget db "type"),
   ("connection_string", dget db "connection_string")]

/-- The key-value pairs written by the MariaDB/PostgreSQL branch of
`get_new_datasource`. -/
def branch2Fields (db : Rec) : Rec :=
  [("database_type", dget db "type"),
   ("database_name", dget db "name"),
   ("title", dget db "title"),
   ("host", dget db "host"),
   ("port", dget db "port"),
   ("username", dget db "username"),
   ("password", dget db "password"),
   ("use_ssl", dget db "useSSL")]

/-- The expression `db.get("name") or frappe.scrub(db.get("title"))` of the
SQLite branch; `none` models the exception raised when the scrub of an absent
title is reached. -/
def sqliteDatabaseName (db : Rec) : Option Value :=
  if truthy (dget db "name") then some (dget db "name")
  else (scrub (dget db "title")).map Value.str

/-- The key-value pairs written by the SQLite branch of `get_new_datasource`,
given the already-computed database name. -/
def branch3Fields (db : Rec) (v : Value) : Rec :=
  [("database_type", dget db "type"),
   ("title", pyOr (dget db "title") (dget db "name")),
   ("database_name", v)]

/-- `get_new_datasource(db)`: builds (without persisting) a new Data Source
record from the loosely-typed mapping `db`, starting from the fresh document
`fresh` returned by `frappe.new_doc`.  The three field-mapping branches are
applied independently in source order; the SQLite branch raises
(`Except.error`) exactly when its database-name expression does. -/
def get_new_datasource (fresh db : Rec) : Except Unit Rec :=
  let ds := fresh
  let ds := if hasConnectionString db then rupdate ds (branch1Fields db) else ds
  let ds := if isMariaOrPostgres db then rupdate ds (branch2Fields db) else ds
  if isSQLite db then
    match sqliteDatabaseName db with
    | none => Except.error ()
    | some v => Except.ok (rupdate ds (branch3Fields db v))
  else Except.ok ds

/-- The field names of the connection-string branch (mapping table in §4.1). -/
def branch1Keys : List String := ["title", "database_type", "connection_string"]

/-- The field names of the MariaDB/PostgreSQL branch (mapping table in §4.1). -/
def branch2Keys : List String :=
  ["database_type", "database_name", "title", "host", "port",
   "username", "password", "use_ssl"]

/-- The field names of the SQLite branch (mapping table in §4.1). -/
def branch3Keys : List String := ["database_type", "title", "database_name"]

/-- The record `get_new_datasource` holds after the first two (non-raising)
branches have been applied. -/
def appliedBranches (fresh db : Rec) : Rec :=
  let ds := fresh
  let ds := if hasConnectionString db then rupdate ds (branch1Fields db) else ds
  if isMariaOrPostgres db then rupdate ds (branch2Fields db) else ds

/-- The persistent state visible to the setup module: the settings singleton's
completion flag (a check field, `0` or `1`), the stored dashboard / query /
data-source records, the demo-data marker, the error log and the survey posts
sent out. -/
structure World where
  setup_complete_flag : Nat
  dashboards : List Rec
  queries : List Rec
  dataSources : List (String × Rec)
  addedDataSources : List Rec
  syncQueue : List Rec
  demoData : Bool
  errorLog : List String
  survey_posts : List String
  deriving DecidableEq, Repr

/-- Modelled from the spec: a fresh installation — the settings singleton with
its completion flag unset, and no records of any kind. -/
def freshWorld : World := ⟨0, [], [], [], [], [], false, [], []⟩

/-- `setup_complete()`:
`bool(frappe.get_single("Insights Settings").setup_complete)`. -/
def setup_complete (w : World) : Bool := !(w.setup_complete_flag == 0)

/-- `complete_setup()`: sets the settings singleton's completion flag to `1`
and saves it. -/
def complete_setup (w : World) : World := { w with setup_complete_flag := 1 }

/-- `update_erpnext_source_title(title)`.  Modelled from the spec: the
framework-level `frappe.db.set_value` rewrites the title field of the fixed
"Site DB" data source, and fails (flag `true`) when that record does not
exist. -/
def setSiteDbTitle (title : Value) (p : String × Rec) : String × Rec :=
  if p.1 == "Site DB" then (p.1, rupdate p.2 [("title", title)]) else p

/-- The operation `update_erpnext_source_title(title)` itself: rename in place
when the record exists, otherwise raise (flag `true`). -/
def update_erpnext_source_title (title : Value) (w : World) : World × Bool :=
  if w.dataSources.any (fun p => p.1 == "Site DB") then
    ({ w with dataSources := w.dataSources.map (setSiteDbTitle title) }, false)
  else (w, true)

/-- Modelled from the spec: `DemoDataFactory().run()` — the external demo-data
factory generates sample dataset content; it is out of scope and does not
touch the settings singleton or the records owned by this module. -/
def demoDataFactoryRun (w : World) : World := { w with demoData := true }

/-- `setup_sample_data(dataset)`: constructs the demo-data factory and runs
it; the `dataset` argument does not occur in the body (the fixture-import call
is commented out). -/
def setup_sample_data (dataset : Value) (w : World) : World := demoDataFactoryRun w

/-- Modelled from the spec: the environment of the demo import — the parsed
contents of the two fixture files (`none` models an exception while opening or
JSON-decoding a file; the files themselves are not part of this module) and
the outcome of `doc.save` on each built document (`false` models `save`
raising). -/
structure FixtureEnv where
  fixtureQueries : Option (List Rec)
  fixtureDashboards : Option (List Rec)
  saveOk : Rec → Bool

/-- `frappe.db.exists("Insights Dashboard", ...)`: does a stored dashboard
carry the title `"eCommerce"`? -/
def hasEcommerceDashboard (w : World) : Bool :=
  w.dashboards.any (fun d => decide (dget d "title" = Value.str "eCommerce"))

/-- One fixture loop of the import: `frappe.new_doc` + `doc.update(entry)` +
`doc.save(ignore_permissions=True)` over the entries; returns the documents
saved so far and whether a save raised (stopping the loop there). -/
def saveDocs (saveOk : Rec → Bool) (docs : List Rec) (acc : List Rec) :
    List Rec × Bool :=
  match docs with
  | [] => (acc, false)
  | d :: rest =>
      let doc := rupdate [] d
      if saveOk doc then saveDocs saveOk rest (acc ++ [doc]) else (acc, true)

/-- The body of the `try:` block of `import_demo_queries_and_dashboards`: load
and save the query fixtures, then the dashboard fixtures.  The boolean reports
whether an exception was raised; the returned world keeps whatever documents
were saved before the failure point. -/
def importBody (env : FixtureEnv) (w : World) : World × Bool :=
  match env.fixtureQueries with
  | none => (w, true)
  | some qs =>
      if (saveDocs env.saveOk qs []).2 then
        ({ w with queries := w.queries ++ (saveDocs env.saveOk qs []).1 }, true)
      else
        match env.fixtureDashboards with
        | none => ({ w with queries := w.queries ++ (saveDocs env.saveOk qs []).1 }, true)
        | some ds =>
            ({ w with queries := w.queries ++ (saveDocs env.saveOk qs []).1,
                      dashboards := w.dashboards ++ (saveDocs env.saveOk ds []).1 },
             (saveDocs env.saveOk ds []).2)

/-- `frappe.log_error("Failed to create Demo Queries and Dashboards")`. -/
def logImportError (w : World) : World :=
  { w with errorLog := "Failed to create Demo Queries and Dashboards" :: w.errorLog }

/-- `import_demo_queries_and_dashboards()`: return immediately when a
dashboard titled "eCommerce" already exists; otherwise run the import body
and, on any exception raised inside it, log the error and return normally
(the function never propagates the exception — its Lean type is total). -/
def import_demo_queries_and_dashboards (env : FixtureEnv) (w : World) : World :=
  if hasEcommerceDashboard w then w
  else
    if (importBody env w).2 then logImportError (importBody env w).1
    else (importBody env w).1

/-- Modelled from the spec: the dashboards fixture yields a dashboard titled
"eCommerce" after `new_doc` + `update` (the fixture files are data shipped
with the app, not part of this module). -/
def fixtureHasEcommerce (env : FixtureEnv) : Bool :=
  match env.fixtureDashboards with
  | none => false
  | some ds =>
      ds.any (fun d => decide (dget (rupdate [] d) "title" = Value.str "eCommerce"))

/-- Modelled from the spec: the environment of `submit_survey_responses` — the
external JSON decoder (`json.loads`; `none` models a raised decode error), the
re-serializer (`json.dumps(..., default=str, indent=4)`; `none` models a
raised serialization error) and the outcome of the external POST (`false`
models a network failure raising). -/
structure SurveyEnv where
  jsonLoads : String → Option Value
  jsonDumps : Value → Option String
  postOk : Bool

/-- `frappe.parse_json(val)`: decode when the value is a string, otherwise
return it unchanged. -/
def parse_json (env : SurveyEnv) (v : Value) : Option Value :=
  match v with
  | Value.str s => env.jsonLoads s
  | v => some v

/-- `frappe.log_error(title="Error submitting survey responses")`. -/
def logSurveyError (w : World) : World :=
  { w with errorLog := "Error submitting survey responses" :: w.errorLog }

/-- `submit_survey_responses(responses)`: parse the payload — this happens
before the `try:` block, so a parse failure raises to the caller (second
component `true`) — then, inside the `try`, re-serialize and POST it, logging
and swallowing any failure there. -/
def submit_survey_responses (env : SurveyEnv) (responses : Value) (w : World) :
    World × Bool :=
  match parse_json env responses with
  | none => (w, true)
  | some r =>
      match env.jsonDumps r with
      | none => (logSurveyError w, false)
      | some s =>
          if env.postOk then ({ w with survey_posts := w.survey_posts ++ [s] }, false)
          else (logSurveyError w, false)

/-- Modelled from the spec: the outcome of `data_source.test_connection` for a
given built record (the Data Source controller is external to this module). -/
structure ConnEnv where
  connOk : Rec → Bool

/-- `test_database_connection(database)`: build an unsaved data source and ask
it to test connectivity; a raised error — from building the record or from the
failed test with `raise_exception=True` — is the `true` flag. -/
def test_database_connection (env : ConnEnv) (database : Rec) (w : World) :
    World × Bool :=
  match get_new_datasource [] database with
  | Except.error _ => (w, true)
  | Except.ok ds => (w, !(env.connOk ds))

/-- `add_database(database)`: build a data source, save it and enqueue the
asynchronous table sync; an error raised while building propagates (`true`
flag). -/
def add_database (database : Rec) (w : World) : World × Bool :=
  match get_new_datasource [] database with
  | Except.error _ => (w, true)
  | Except.ok ds =>
      ({ w with addedDataSources := w.addedDataSources ++ [ds],
                syncQueue := w.syncQueue ++ [ds] }, false)

/-- Modelled from the spec: an environment whose JSON decoder rejects the
document it is given — as `json.loads` does on a malformed, non-JSON string —
while serialization and the network would succeed. -/
def badParseEnv : SurveyEnv :=
  { jsonLoads := fun _ => none, jsonDumps := fun _ => some "", postOk := true }

/-- A survey environment in which decoding, serialization and the POST all
succeed. -/
def okSurveyEnv : SurveyEnv :=
  { jsonLoads := fun _ => some Value.null, jsonDumps := fun _ => some "ok",
    postOk := true }

/-- A fixture environment with readable fixture files — no demo queries, one
demo dashboard titled "eCommerce" — and every save succeeding. -/
def envEcom : FixtureEnv :=
  { fixtureQueries := some [],
    fixtureDashboards := some [[("title", Value.str "eCommerce")]],
    saveOk := fun _ => true }

/-- A fixture environment in which opening the fixture files raises. -/
def envNoFixtures : FixtureEnv :=
  { fixtureQueries := none, fixtureDashboards := none, saveOk := fun _ => true }

theorem get_new_datasource_eq (fresh db : Rec) :
    get_new_datasource fresh db =
      if isSQLite db then
        match sqliteDatabaseName db with
        | none => Except.error ()
        | some v => Except.ok (rupdate (appliedBranches fresh db) (branch3Fields db v))
      else Except.ok (appliedBranches fresh db) := rfl

theorem rget_append_of_not_key (kvs r : Rec) (k : String)
    (h : ∀ p ∈ kvs, p.1 ≠ k) : rget (kvs ++ r) k = rget r k := by
  induction kvs with
  | nil => rfl
  | cons p t ih =>
      have hp : (p.1 == k) = false := by
        simp only [beq_eq_false_iff_ne]
        exact h p (List.mem_cons_self p t)
      simp only [rget, List.cons_append, List.find?]
      rw [hp]
      exact ih (fun q hq => h q (List.mem_cons_of_mem p hq))

theorem rget_rupdate_of_not_key (r kvs : Rec) (k : String)
    (h : ∀ p ∈ kvs, p.1 ≠ k) : rget (rupdate r kvs) k = rget r k := by
  unfold rupdate
  exact rget_append_of_not_key _ _ _ (fun p hp => h p (List.mem_reverse.mp hp))

theorem branch1Fields_keys (db : Rec) :
    ∀ p ∈ branch1Fields db, p.1 ∈ branch1Keys := by
  intro p hp
  simp only [branch1Fields, List.mem_cons, List.not_mem_nil, or_false] at hp
  rcases hp with rfl | rfl | rfl <;> simp [branch1Keys]

theorem branch2Fields_keys (db : Rec) :
    ∀ p ∈ branch2Fields db, p.1 ∈ branch2Keys := by
  intro p hp
  simp only [branch2Fields, List.mem_cons, List.not_mem_nil, or_false] at hp
  rcases hp with rfl | rfl | rfl | rfl | rfl | rfl | rfl | rfl <;> simp [branch2Keys]

theorem branch3Fields_keys (db : Rec) (v : Value) :
    ∀ p ∈ branch3Fields db v, p.1 ∈ branch3Keys := by
  intro p hp
  simp only [branch3Fields, List.mem_cons, List.not_mem_nil, or_false] at hp
  rcases hp with rfl | rfl | rfl <;> simp [branch3Keys]

theorem branch1_not_key (db : Rec) (k : String) (hk : k ∉ branch1Keys) :
    ∀ p ∈ branch1Fields db, p.1 ≠ k :=
  fun p hp he => hk (he ▸ branch1Fields_keys db p hp)

theorem branch2_not_key (db : Rec) (k : String) (hk : k ∉ branch2Keys) :
    ∀ p ∈ branch2Fields db, p.1 ≠ k :=
  fun p hp he => hk (he ▸ branch2Fields_keys db p hp)

theorem branch3_not_key (db : Rec) (v : Value) (k : String) (hk : k ∉ branch3Keys) :
    ∀ p ∈ branch3Fields db v, p.1 ≠ k :=
  fun p hp he => hk (he ▸ branch3Fields_keys db v p hp)

theorem not_maria_of_sqlite (db : Rec) (h : isSQLite db = true) :
    isMariaOrPostgres db = false := by
  simp only [isSQLite, decide_eq_true_eq] at h
  simp [isMariaOrPostgres, h]

theorem get_new_datasource_ok_cases (fresh db r : Rec)
    (h : get_new_datasource fresh db = Except.ok r) :
    (isSQLite db = false ∧ r = appliedBranches fresh db)
    ∨ (isSQLite db = true ∧ ∃ v, sqliteDatabaseName db = some v ∧
        r = rupdate (appliedBranches fresh db) (branch3Fields db v)) := by
  rw [get_new_datasource_eq] at h
  cases hc3 : isSQLite db with
  | false =>
      rw [hc3] at h
      simp only [if_false, Except.ok.injEq, Bool.false_eq_true] at h
      exact Or.inl ⟨rfl, h.symm⟩
  | true =>
      rw [hc3] at h
      simp only [if_true] at h
      cases hv : sqliteDatabaseName db with
      | none => rw [hv] at h; exact absurd h (by simp)
      | some v =>
          rw [hv] at h
          simp only [Except.ok.injEq] at h
          exact Or.inr ⟨rfl, v, rfl, h.symm⟩

theorem rget_appliedBranches_of_not_key (fresh db : Rec) (k : String)
    (h1 : hasConnectionString db = true → k ∉ branch1Keys)
    (h2 : isMariaOrPostgres db = true → k ∉ branch2Keys) :
    rget (appliedBranches fresh db) k = rget fresh k := by
  unfold appliedBranches
  cases hc1 : hasConnectionString db <;> cases hc2 : isMariaOrPostgres db <;>
    simp only [if_true, if_false]
  · rfl
  · exact rget_rupdate_of_not_key _ _ _ (branch2_not_key db k (h2 hc2))
  · exact rget_rupdate_of_not_key _ _ _ (branch1_not_key db k (h1 hc1))
  · rw [rget_rupdate_of_not_key _ _ _ (branch2_not_key db k (h2 hc2))]
    exact rget_rupdate_of_not_key _ _ _ (branch1_not_key db k (h1 hc1))

theorem rget_rupdate_branch1_vals (ds db : Rec) :
    rget (rupdate ds (branch1Fields db)) "title" = some (dget db "title")
    ∧ rget (rupdate ds (branch1Fields db)) "database_type" = some (dget db "type")
    ∧ rget (rupdate ds (branch1Fields db)) "connection_string"
        = some (dget db "connection_string") :=
  ⟨rfl, rfl, rfl⟩

theorem rget_rupdate_branch2_vals (ds db : Rec) :
    rget (rupdate ds (branch2Fields db)) "database_type" = some (dget db "type")
    ∧ rget (rupdate ds (branch2Fields db)) "database_name" = some (dget db "name")
    ∧ rget (rupdate ds (branch2Fields db)) "title" = some (dget db "title")
    ∧ rget (rupdate ds (branch2Fields db)) "host" = some (dget db "host")
    ∧ rget (rupdate ds (branch2Fields db)) "port" = some (dget db "port")
    ∧ rget (rupdate ds (branch2Fields db)) "username" = some (dget db "username")
    ∧ rget (rupdate ds (branch2Fields db)) "password" = some (dget db "password")
    ∧ rget (rupdate ds (branch2Fields db)) "use_ssl" = some (dget db "useSSL") :=
  ⟨rfl, rfl, rfl, rfl, rfl, rfl, rfl, rfl⟩

theorem rget_rupdate_branch3_vals (ds db : Rec) (v : Value) :
    rget (rupdate ds (branch3Fields db v)) "database_type" = some (dget db "type")
    ∧ rget (rupdate ds (branch3Fields db v)) "title"
        = some (pyOr (dget db "title") (dget db "name"))
    ∧ rget (rupdate ds (branch3Fields db v)) "database_name" = some v :=
  ⟨rfl, rfl, rfl⟩

theorem appliedBranches_conn (fresh db : Rec) (hc1 : hasConnectionString db = true) :
    rget (appliedBranches fresh db) "connection_string"
      = some (dget db "connection_string")
    ∧ rget (appliedBranches fresh db) "database_type" = some (dget db "type")
    ∧ (rget (appliedBranches fresh db) "title").isSome = true := by
  unfold appliedBranches
  cases hc2 : isMariaOrPostgres db
  · simp only [hc1, hc2, if_true, if_false, Bool.false_eq_true]
    exact ⟨rfl, rfl, rfl⟩
  · simp only [hc1, hc2, if_true]
    refine ⟨?_, rfl, rfl⟩
    rw [rget_rupdate_of_not_key _ _ _ (branch2_not_key db _ (by decide))]
    rfl

theorem appliedBranches_maria (fresh db : Rec) (hc2 : isMariaOrPostgres db = true) :
    rget (appliedBranches fresh db) "database_type" = some (dget db "type")
    ∧ rget (appliedBranches fresh db) "database_name" = some (dget db "name")
    ∧ rget (appliedBranches fresh db) "title" = some (dget db "title")
    ∧ rget (appliedBranches fresh db) "host" = some (dget db "host")
    ∧ rget (appliedBranches fresh db) "port" = some (dget db "port")
    ∧ rget (appliedBranches fresh db) "username" = some (dget db "username")
    ∧ rget (appliedBranches fresh db) "password" = some (dget db "password")
    ∧ rget (appliedBranches fresh db) "use_ssl" = some (dget db "useSSL") := by
  unfold appliedBranches
  simp only [hc2, if_true]
  exact rget_rupdate_branch2_vals _ db

/-- C2: for every input mapping `db`, `get_new_datasource` evaluates its three
field-mapping branches independently — the guards are separate `if`s, so a
record can match more than one — and, whenever it returns a record, each
matched branch has set exactly the fields of its §4.1 mapping-table row
(overlapping fields carrying the later branch's value), while every field
outside the matched rows is exactly as on the fresh record. -/
theorem getNewDatasource_field_mapping (fresh db r : Rec)
    (h : get_new_datasource fresh db = Except.ok r) :
    (∀ k : String,
        ¬ (hasConnectionString db = true ∧ k ∈ branch1Keys) →
        ¬ (isMariaOrPostgres db = true ∧ k ∈ branch2Keys) →
        ¬ (isSQLite db = true ∧ k ∈ branch3Keys) →
        rget r k = rget fresh k)
    ∧ (hasConnectionString db = true →
        rget r "connection_string" = some (dget db "connection_string")
        ∧ rget r "database_type" = some (dget db "type")
        ∧ (rget r "title").isSome = true)
    ∧ (isMariaOrPostgres db = true →
        rget r "database_type" = some (dget db "type")
        ∧ rget r "database_name" = some (dget db "name")
        ∧ rget r "title" = some (dget db "title")
        ∧ rget r "host" = some (dget db "host")
        ∧ rget r "port" = some (dget db "port")
        ∧ rget r "username" = some (dget db "username")
        ∧ rget r "password" = some (dget db "password")
        ∧ rget r "use_ssl" = some (dget db "useSSL"))
    ∧ (isSQLite db = true →
        rget r "database_type" = some (dget db "type")
        ∧ rget r "title" = some (pyOr (dget db "title") (dget db "name"))
        ∧ ∃ v, sqliteDatabaseName db = some v ∧ rget r "database_name" = some v) := by
  rcases get_new_datasource_ok_cases fresh db r h with ⟨hc3, rfl⟩ | ⟨hc3, v, hv, rfl⟩
  · refine ⟨?_, ?_, ?_, ?_⟩
    · intro k h1 h2 h3
      exact rget_appliedBranches_of_not_key fresh db k
        (fun hc hk => h1 ⟨hc, hk⟩) (fun hc hk => h2 ⟨hc, hk⟩)
    · intro hc1
      exact appliedBranches_conn fresh db hc1
    · intro hc2
      exact appliedBranches_maria fresh db hc2
    · intro hcs
      rw [hc3] at hcs
      exact absurd hcs (by simp)
  · refine ⟨?_, ?_, ?_, ?_⟩
    · intro k h1 h2 h3
      have hk3 : k ∉ branch3Keys := fun hk => h3 ⟨hc3, hk⟩
      rw [rget_rupdate_of_not_key _ _ _ (branch3_not_key db v k hk3)]
      exact rget_appliedBranches_of_not_key fresh db k
        (fun hc hk => h1 ⟨hc, hk⟩) (fun hc hk => h2 ⟨hc, hk⟩)
    · intro hc1
      refine ⟨?_, (rget_rupdate_branch3_vals _ db v).1, ?_⟩
      · rw [rget_rupdate_of_not_key _ _ _ (branch3_not_key db v _ (by decide))]
        exact (appliedBranches_conn fresh db hc1).1
      · rw [(rget_rupdate_branch3_vals _ db v).2.1]
        rfl
    · intro hc2
      rw [not_maria_of_sqlite db hc3] at hc2
      exact absurd hc2 (by simp)
    · intro hcs
      exact ⟨(rget_rupdate_branch3_vals _ db v).1,
             (rget_rupdate_branch3_vals _ db v).2.1,
             v, hv, (rget_rupdate_branch3_vals _ db v).2.2⟩

theorem getNewDatasource_field_mapping_witness :
    get_new_datasource [] [("type", Value.str "MariaDB")] =
      Except.ok (rupdate [] (branch2Fields [("type", Value.str "MariaDB")]))
    ∧ rget (rupdate [] (branch2Fields [("type", Value.str "MariaDB")])) "host" =
        some (dget [("type", Value.str "MariaDB")] "host") :=
  ⟨rfl,
   ((getNewDatasource_field_mapping [] [("type", Value.str "MariaDB")]
      (rupdate [] (branch2Fields [("type", Value.str "MariaDB")])) rfl).2.2.1
      rfl).2.2.2.1⟩

/-- C3: the SQLite branch applies two fallbacks — with a `name` but no
`title`, the resulting title and database_name both equal that name; with a
`title` but no `name`, the database_name is the scrubbed (normalized) form of
the title, here `scrub "My DB" = "my_db"`. -/
theorem sqlite_fallbacks :
    (∃ r, get_new_datasource []
        [("type", Value.str "SQLite"), ("name", Value.str "mydb")] = Except.ok r
      ∧ rget r "title" = some (Value.str "mydb")
      ∧ rget r "database_name" = some (Value.str "mydb"))
    ∧ (∃ r, get_new_datasource []
        [("type", Value.str "SQLite"), ("title", Value.str "My DB")] = Except.ok r
      ∧ scrub (Value.str "My DB") = some "my_db"
      ∧ rget r "database_name" = some (Value.str "my_db")) := by
  refine ⟨⟨_, rfl, ?_, ?_⟩, ⟨_, rfl, ?_, ?_⟩⟩ <;> rfl

/-- C4: an input whose type is none of MariaDB, PostgreSQL or SQLite and which
has no connection_string matches no branch: `get_new_datasource` raises no
error and returns the fresh record with no field set by any branch. -/
theorem getNewDatasource_unknown_type (fresh db : Rec)
    (hc : rget db "connection_string" = none)
    (ht1 : dget db "type" ≠ Value.str "MariaDB")
    (ht2 : dget db "type" ≠ Value.str "PostgreSQL")
    (ht3 : dget db "type" ≠ Value.str "SQLite") :
    get_new_datasource fresh db = Except.ok fresh := by
  have h1 : hasConnectionString db = false := by
    simp [hasConnectionString, dget, hc, truthy]
  have h2 : isMariaOrPostgres db = false := by
    simp [isMariaOrPostgres, ht1, ht2]
  have h3 : isSQLite db = false := by
    simp [isSQLite, ht3]
  simp [get_new_datasource, h1, h2, h3]

theorem getNewDatasource_unknown_type_witness :
    rget [("type", Value.str "MSSQL")] "connection_string" = none
    ∧ dget [("type", Value.str "MSSQL")] "type" ≠ Value.str "MariaDB"
    ∧ get_new_datasource [("x", Value.int 1)] [("type", Value.str "MSSQL")]
        = Except.ok [("x", Value.int 1)] :=
  ⟨rfl, by decide,
   getNewDatasource_unknown_type [("x", Value.int 1)] [("type", Value.str "MSSQL")]
     rfl (by decide) (by decide) (by decide)⟩

/-- C10: in the SQLite branch, the database name is computed by applying scrub
to the title with no guard, so when the input has neither `name` nor `title`
the scrub of an absent (`None`) value is reached and the branch raises — it is
total only under the precondition that `name` or `title` is present. -/
theorem sqlite_branch_requires_name_or_title (fresh db : Rec)
    (ht : dget db "type" = Value.str "SQLite")
    (hn : rget db "name" = none)
    (hti : rget db "title" = none) :
    get_new_datasource fresh db = Except.error () := by
  have h3 : isSQLite db = true := by simp [isSQLite, ht]
  have hv : sqliteDatabaseName db = none := by
    simp [sqliteDatabaseName, dget, hn, hti, truthy, scrub]
  simp [get_new_datasource_eq, h3, hv]

theorem sqlite_branch_requires_name_or_title_witness :
    dget [("type", Value.str "SQLite")] "type" = Value.str "SQLite"
    ∧ rget [("type", Value.str "SQLite")] "name" = none
    ∧ rget [("type", Value.str "SQLite")] "title" = none
    ∧ get_new_datasource [] [("type", Value.str "SQLite")] = Except.error () :=
  ⟨rfl, rfl, rfl,
   sqlite_branch_requires_name_or_title [] [("type", Value.str "SQLite")] rfl rfl rfl⟩

/-- C5: on a fresh settings singleton `setup_complete()` returns false; after
`complete_setup()` has run — it sets the completion flag to 1 and persists
it — `setup_complete()` returns true. -/
theorem setup_complete_lifecycle :
    setup_complete freshWorld = false
    ∧ ∀ w : World, (complete_setup w).setup_complete_flag = 1
        ∧ setup_complete (complete_setup w) = true :=
  ⟨rfl, fun w => ⟨rfl, rfl⟩⟩

/-- C9: the behaviour of `setup_sample_data` does not depend on its `dataset`
argument — any two argument values produce the same effect on any state. -/
theorem setup_sample_data_ignores_dataset :
    ∀ (d1 d2 : Value) (w : World),
      setup_sample_data d1 w = setup_sample_data d2 w :=
  fun _ _ _ => rfl

/-- C1 counterexample: a malformed (non-JSON) string payload makes
`submit_survey_responses` raise — `frappe.parse_json` runs before the `try:`
block, so the decode error is not caught (the raised flag is `true`). -/
theorem submit_survey_raises_on_malformed :
    (submit_survey_responses badParseEnv (Value.str "not valid json")
        freshWorld).2 = true := rfl

/-- C1 (amended): for every payload that is not a string, or is a string the
JSON decoder accepts, `submit_survey_responses` returns normally regardless of
serialization or network outcome — every failure inside the submission is
caught and logged (the result is either a recorded POST or the logged error).
A string payload that fails JSON decoding raises instead, because the parse
happens outside the `try:` block. -/
theorem submit_survey_ok_of_parse (env : SurveyEnv) (responses : Value) (w : World)
    (h : (parse_json env responses).isSome = true) :
    (submit_survey_responses env responses w).2 = false
    ∧ ((∃ s, (submit_survey_responses env responses w).1
          = { w with survey_posts := w.survey_posts ++ [s] })
       ∨ (submit_survey_responses env responses w).1 = logSurveyError w) := by
  cases hp : parse_json env responses with
  | none => rw [hp] at h; exact absurd h (by simp)
  | some r =>
      simp only [submit_survey_responses, hp]
      cases hd : env.jsonDumps r with
      | none => exact ⟨rfl, Or.inr rfl⟩
      | some s =>
          cases hpost : env.postOk with
          | false => exact ⟨rfl, Or.inr rfl⟩
          | true => exact ⟨rfl, Or.inl ⟨s, rfl⟩⟩

theorem submit_survey_ok_of_parse_witness :
    (parse_json okSurveyEnv Value.null).isSome = true
    ∧ (submit_survey_responses okSurveyEnv Value.null freshWorld).2 = false :=
  ⟨rfl, (submit_survey_ok_of_parse okSurveyEnv Value.null freshWorld rfl).1⟩

theorem saveDocs_of_no_error (ok : Rec → Bool) (docs : List Rec) (acc : List Rec)
    (h : (saveDocs ok docs acc).2 = false) :
    (saveDocs ok docs acc).1 = acc ++ docs.map (fun d => rupdate [] d) := by
  induction docs generalizing acc with
  | nil => simp [saveDocs]
  | cons d rest ih =>
      cases hOk : ok (rupdate [] d) with
      | false => simp [saveDocs, hOk] at h
      | true =>
          simp only [saveDocs, hOk, if_true] at h ⊢
          rw [ih _ h]
          simp

theorem importBody_no_error (env : FixtureEnv) (w : World)
    (h : (importBody env w).2 = false) :
    ∃ qs ds, env.fixtureQueries = some qs ∧ env.fixtureDashboards = some ds
      ∧ (saveDocs env.saveOk ds []).2 = false
      ∧ (importBody env w).1.dashboards
          = w.dashboards ++ ds.map (fun d => rupdate [] d) := by
  cases hq : env.fixtureQueries with
  | none => simp [importBody, hq] at h
  | some qs =>
      cases hsq : (saveDocs env.saveOk qs []).2 with
      | true => simp [importBody, hq, hsq] at h
      | false =>
          cases hd : env.fixtureDashboards with
          | none => simp [importBody, hq, hsq, hd] at h
          | some ds =>
              refine ⟨qs, ds, rfl, rfl, ?_, ?_⟩
              · simpa [importBody, hq, hsq, hd] using h
              · have hds : (saveDocs env.saveOk ds []).2 = false := by
                  simpa [importBody, hq, hsq, hd] using h
                simp [importBody, hq, hsq, hd,
                  saveDocs_of_no_error env.saveOk ds [] hds]

theorem import_demo_noop_of_ecommerce (env : FixtureEnv) (w : World)
    (h : hasEcommerceDashboard w = true) :
    import_demo_queries_and_dashboards env w = w := by
  simp [import_demo_queries_and_dashboards, h]

/-- C8: whenever the fixture-loading / record-creation phase of
`import_demo_queries_and_dashboards` raises, the function logs the import
error and returns normally (its embedding is a total function into `World`, so
no exception propagates and the caller sees only the logged state). -/
theorem import_demo_swallows_errors (env : FixtureEnv) (w : World)
    (hne : hasEcommerceDashboard w = false)
    (h : (importBody env w).2 = true) :
    import_demo_queries_and_dashboards env w = logImportError (importBody env w).1
    ∧ (import_demo_queries_and_dashboards env w).errorLog
        = "Failed to create Demo Queries and Dashboards"
            :: (importBody env w).1.errorLog := by
  have h1 : import_demo_queries_and_dashboards env w
      = logImportError (importBody env w).1 := by
    simp [import_demo_queries_and_dashboards, hne, h]
  exact ⟨h1, by rw [h1]; rfl⟩

theorem import_demo_swallows_errors_witness :
    hasEcommerceDashboard freshWorld = false
    ∧ (importBody envNoFixtures freshWorld).2 = true
    ∧ import_demo_queries_and_dashboards envNoFixtures freshWorld
        = logImportError (importBody envNoFixtures freshWorld).1 :=
  ⟨rfl, rfl, (import_demo_swallows_errors envNoFixtures freshWorld rfl rfl).1⟩

/-- C7: `import_demo_queries_and_dashboards` is idempotent via its existence
check — whenever a dashboard titled "eCommerce" already exists the call
returns its input state unchanged (no fixture read, no record created), and a
second call after a successful first import (whose dashboards fixture yields
the eCommerce dashboard) is therefore a no-op. -/
theorem import_demo_idempotent (env : FixtureEnv) (w : World) :
    (hasEcommerceDashboard w = true →
      import_demo_queries_and_dashboards env w = w)
    ∧ (hasEcommerceDashboard w = false →
        (importBody env w).2 = false →
        fixtureHasEcommerce env = true →
        import_demo_queries_and_dashboards env
            (import_demo_queries_and_dashboards env w)
          = import_demo_queries_and_dashboards env w) := by
  constructor
  · exact import_demo_noop_of_ecommerce env w
  · intro hne hs hf
    have hrun : import_demo_queries_and_dashboards env w = (importBody env w).1 := by
      simp [import_demo_queries_and_dashboards, hne, hs]
    rw [hrun]
    apply import_demo_noop_of_ecommerce
    rcases importBody_no_error env w hs with ⟨qs, ds, hq, hd, hsd, hdash⟩
    simp only [fixtureHasEcommerce, hd] at hf
    simp only [hasEcommerceDashboard, hdash, List.any_append, List.any_map,
      Function.comp, Bool.or_eq_true]
    exact Or.inr hf

theorem import_demo_idempotent_witness :
    hasEcommerceDashboard freshWorld = false
    ∧ (importBody envEcom freshWorld).2 = false
    ∧ fixtureHasEcommerce envEcom = true
    ∧ import_demo_queries_and_dashboards envEcom
        (import_demo_queries_and_dashboards envEcom freshWorld)
      = import_demo_queries_and_dashboards envEcom freshWorld :=
  ⟨rfl, rfl, rfl,
   (import_demo_idempotent envEcom freshWorld).2 rfl rfl rfl⟩

theorem importBody_flag (env : FixtureEnv) (w : World) :
    (importBody env w).1.setup_complete_flag = w.setup_complete_flag := by
  cases hq : env.fixtureQueries with
  | none => simp [importBody, hq]
  | some qs =>
      cases hsq : (saveDocs env.saveOk qs []).2 with
      | true => simp [importBody, hq, hsq]
      | false =>
          cases hd : env.fixtureDashboards with
          | none => simp [importBody, hq, hsq, hd]
          | some ds => simp [importBody, hq, hsq, hd]

/-- C6: the completion flag transitions one way only — from every state in
which `setup_complete` is already true, every operation of this module's
surface leaves it true (no operation ever resets it; the reads
`setup_complete` and the pure `get_new_datasource` touch no state at all). -/
theorem setup_complete_one_way (w : World) (h : setup_complete w = true) :
    setup_complete (complete_setup w) = true
    ∧ (∀ t, setup_complete (update_erpnext_source_title t w).1 = true)
    ∧ (∀ d, setup_complete (setup_sample_data d w) = true)
    ∧ (∀ env, setup_complete (import_demo_queries_and_dashboards env w) = true)
    ∧ (∀ env r, setup_complete (submit_survey_responses env r w).1 = true)
    ∧ (∀ env db, setup_complete (test_database_connection env db w).1 = true)
    ∧ (∀ db, setup_complete (add_database db w).1 = true) := by
  refine ⟨rfl, ?_, ?_, ?_, ?_, ?_, ?_⟩
  · intro t
    unfold update_erpnext_source_title
    split <;> exact h
  · intro d
    exact h
  · intro env
    have hf := importBody_flag env w
    unfold import_demo_queries_and_dashboards
    split
    · exact h
    · split
      · simp only [setup_complete, logImportError]
        rw [hf]
        exact h
      · simp only [setup_complete]
        rw [hf]
        exact h
  · intro env r
    unfold submit_survey_responses
    split
    · exact h
    · split
      · exact h
      · split <;> exact h
  · intro env db
    unfold test_database_connection
    split <;> exact h
  · intro db
    unfold add_database
    split <;> exact h

theorem setup_complete_one_way_witness :
    setup_complete (complete_setup freshWorld) = true
    ∧ setup_complete (complete_setup (complete_setup freshWorld)) = true :=
  ⟨rfl, (setup_complete_one_way (complete_setup freshWorld) rfl).1⟩
